import Mathlib

/-!
# Resume-Analyzer-AI: verification of the analysis logic

Shallow embedding of the resume-analysis logic of `App/App.py` and of the
AI helper `App/ai_client.py`.  Resume text is modelled as `List Char`
(Python strings under `.upper()` / `.lower()` / substring `in`); the
Streamlit rendering, PDF extraction, database writes and other I/O around
the analysis are outside the embedded core, exactly as in the source,
where the analysis is a block of pure computations on `resume_text`,
`resume_data['no_of_pages']` and `resume_data['skills']`.
-/

namespace ResumeAnalyzer

/-- Resume text, as a sequence of characters (a Python `str`). -/
abbrev Text := List Char

/-- Python `str.upper()` (ASCII view, which covers every keyword used). -/
def upper (t : Text) : Text := t.map Char.toUpper

/-- Python `str.lower()` (ASCII view). -/
def lower (t : Text) : Text := t.map Char.toLower

/-- Python substring test `pat in s` on strings. -/
def containsSub (pat : Text) : Text → Bool
  | [] => pat.isEmpty
  | c :: t => pat.isPrefixOf (c :: t) || containsSub pat t

/-- The exceptions the embedded code can raise. -/
inductive PyErr where
  | attributeError
  | runtimeError (msg : String)
deriving DecidableEq

/-- Candidate-level block of `run` (App.py lines 444-462):
`cand_level` is `"NA"` when `no_of_pages < 1`; otherwise the code tests
`'INTERNSHIP' in resume_text.upper()` (→ `"Intermediate"`), then
`'EXPERIENCE' in resume_text.upper()` (→ `"Experienced"`), else
`"Fresher"`.  When `resume_text` is `None`, evaluating
`resume_text.upper()` raises `AttributeError`. -/
def candLevel (resume_text : Option Text) (no_of_pages : Int) :
    Except PyErr String :=
  if no_of_pages < 1 then .ok "NA"
  else
    match resume_text with
    | none => .error .attributeError
    | some t =>
      if containsSub "INTERNSHIP".toList (upper t) then .ok "Intermediate"
      else if containsSub "EXPERIENCE".toList (upper t) then .ok "Experienced"
      else .ok "Fresher"

/-- `text_upper = resume_text.upper() if isinstance(resume_text, str) else ""`
(App.py line 538). -/
def text_upper (resume_text : Option Text) : Text :=
  match resume_text with
  | some t => upper t
  | none => []

/-- `section_name in text_upper` for one section keyword. -/
def hit (tu : Text) (k : String) : Bool := containsSub k.toList tu

/-- Resume scoring block of `run` (App.py lines 537-567): `resume_score`
starts at 0 and each section check adds its fixed weight. -/
def sectionScore (tu : Text) : Nat :=
  (if hit tu "OBJECTIVE" || hit tu "SUMMARY" then 6 else 0) +
  (if hit tu "EDUCATION" || hit tu "SCHOOL" || hit tu "COLLEGE" then 12 else 0) +
  (if hit tu "EXPERIENCE" then 16 else 0) +
  (if hit tu "INTERNSHIP" || hit tu "INTERNSHIPS" then 6 else 0) +
  (if hit tu "SKILL" || hit tu "SKILLS" then 7 else 0) +
  (if hit tu "PROJECT" || hit tu "PROJECTS" then 19 else 0)

/-- The resume structure score as computed by `run`. -/
def resume_score (resume_text : Option Text) : Nat :=
  sectionScore (text_upper resume_text)

/-- The twelve section names tested by the scoring block. -/
def sectionKeywords : List String :=
  ["OBJECTIVE", "SUMMARY", "EDUCATION", "SCHOOL", "COLLEGE", "EXPERIENCE",
   "INTERNSHIP", "INTERNSHIPS", "SKILL", "SKILLS", "PROJECT", "PROJECTS"]

/-- The keyword vocabularies of the field-classification loop
(App.py lines 471-476), lowercase as in the source. -/
def ds_keyword : List Text :=
  (["tensorflow", "keras", "pytorch", "machine learning", "deep learning",
    "flask", "streamlit"]).map String.toList

/-- Web-development keyword vocabulary (App.py line 472). -/
def web_keyword : List Text :=
  (["react", "django", "node js", "react js", "php", "laravel", "magento",
    "wordpress", "javascript", "angular js", "c#", "asp.net",
    "flask"]).map String.toList

/-- Android keyword vocabulary (App.py line 473). -/
def android_keyword : List Text :=
  (["android", "android development", "flutter", "kotlin", "xml",
    "kivy"]).map String.toList

/-- iOS keyword vocabulary (App.py line 474). -/
def ios_keyword : List Text :=
  (["ios", "ios development", "swift", "cocoa", "cocoa touch",
    "xcode"]).map String.toList

/-- UI-UX keyword vocabulary (App.py line 475). -/
def uiux_keyword : List Text :=
  (["ux", "adobe xd", "figma", "zeplin", "balsamiq", "ui", "prototyping",
    "wireframes", "adobe photoshop", "photoshop",
    "illustrator"]).map String.toList

/-- Generic keyword vocabulary `n_any` (App.py line 476). -/
def n_any : List Text :=
  (["english", "communication", "writing", "microsoft office", "leadership",
    "customer management", "social media"]).map String.toList

/-- Recommended skills shown for the Data Science field (App.py line 489). -/
def dsRecommendedSkills : List String :=
  ["Data Visualization", "Predictive Analysis", "Statistical Modeling",
   "Data Mining", "Clustering & Classification", "Data Analytics",
   "Quantitative Analysis", "Web Scraping", "ML Algorithms", "Keras",
   "Pytorch", "Probability", "Scikit-learn", "Tensorflow", "Flask",
   "Streamlit"]

/-- Recommended skills for the Web Development field (App.py line 497). -/
def webRecommendedSkills : List String :=
  ["React", "Django", "Node JS", "React JS", "PHP", "Laravel", "Magento",
   "Wordpress", "Javascript", "Angular JS", "C#", "Flask", "SDK"]

/-- Recommended skills for the Android field (App.py line 505). -/
def androidRecommendedSkills : List String :=
  ["Android", "Android development", "Flutter", "Kotlin", "XML", "Java",
   "Kivy", "GIT", "SDK", "SQLite"]

/-- Recommended skills for the iOS field (App.py line 513). -/
def iosRecommendedSkills : List String :=
  ["IOS", "IOS Development", "Swift", "Cocoa", "Cocoa Touch", "Xcode",
   "Objective-C", "SQLite", "Plist", "StoreKit", "UI-Kit", "AV Foundation",
   "Auto-Layout"]

/-- Recommended skills for the UI-UX field (App.py line 521). -/
def uiuxRecommendedSkills : List String :=
  ["UI", "User Experience", "Adobe XD", "Figma", "Zeplin", "Balsamiq",
   "Prototyping", "Wireframes", "Storyframes", "Adobe Photoshop", "Editing",
   "Illustrator", "After Effects", "Premier Pro", "Indesign"]

/-- The `if il in ds_keyword ... elif ... elif il in n_any` chain of the
field-classification loop body (App.py lines 486-533): list membership of
the lowercased token, tried in the source's order; the branch fixes
`reco_field` and `recommended_skills`. -/
def classifyToken (il : Text) : Option (String × List String) :=
  if ds_keyword.contains il then some ("Data Science", dsRecommendedSkills)
  else if web_keyword.contains il then
    some ("Web Development", webRecommendedSkills)
  else if android_keyword.contains il then
    some ("Android Development", androidRecommendedSkills)
  else if ios_keyword.contains il then
    some ("IOS Development", iosRecommendedSkills)
  else if uiux_keyword.contains il then
    some ("UI-UX Development", uiuxRecommendedSkills)
  else if n_any.contains il then some ("NA", ["No Recommendations"])
  else none

/-- One iteration of the loop on a list entry: `if i is None: continue`
(→ `none`), else classify `str(i).lower()`. -/
def matchTok : Option Text → Option (String × List String)
  | none => none
  | some i => classifyToken (lower i)

/-- The `for i in skills_list` loop (App.py lines 478-533): the first
matching token fixes `(reco_field, recommended_skills)` and the loop
breaks; if no token matches, the initial values `('', [])` remain. -/
def fieldLoop : List (Option Text) → String × List String
  | [] => ("", [])
  | s :: rest =>
    match matchTok s with
    | some r => r
    | none => fieldLoop rest

/-- The scorecard produced by the analysis block of `run`.  `rec_course`
is the course list from `course_recommender`, whose content depends on
`random.shuffle` and the slider; that nondeterminism enters `analyze` as
the `courseOf` parameter. -/
structure Scorecard where
  cand_level : Except PyErr String
  score : Nat
  reco_field : String
  recommended_skills : List String
  rec_course : Option (List String)

/-- The whole analysis block of `run` as one function of its inputs:
the extracted `resume_text`, the parsed page count, the parser's
`skills_list`, and the (randomized) course recommender output. -/
def analyze (resume_text : Option Text) (no_of_pages : Int)
    (skills_list : List (Option Text)) (courseOf : String → List String) :
    Scorecard :=
  let fr := fieldLoop skills_list
  { cand_level := candLevel resume_text no_of_pages
    score := resume_score resume_text
    reco_field := fr.1
    recommended_skills := fr.2
    rec_course :=
      if fr.1 = "" || fr.1 = "NA" then none else some (courseOf fr.1) }

/-- Environment of `ai_client.py` at call time: whether the `google-genai`
SDK imported (`_has_genai`), whether `_genai_client` is non-`None` after
the init attempts, the `AI_PROVIDER` and API-key secrets, and the
behaviour of the remote `generate_content` call, which either yields the
generated text (after the `resp.text` / `str(resp)` extraction) or raises. -/
structure AiEnv where
  hasGenai : Bool
  clientOk : Bool
  apiProvider : String
  apiKey : Option String
  generate : String → Except PyErr String

/-- Python truthiness test `not API_KEY`: the key is absent or empty. -/
def keyFalsy : Option String → Bool
  | none => true
  | some s => s == ""

/-- The message returned when no API key is configured
(ai_client.py lines 113-117). -/
def notEnabledMsg : String :=
  "AI suggestions are not enabled. To enable them, add your API key to Streamlit secrets:\n\nSettings → Secrets → Add KEY: `AI_API_KEY` or `GEMINI_API_KEY` with your API key.\n\nAlso add `google-genai` to requirements.txt (package name `google-genai`)."

/-- The message returned when a key exists but no provider is usable
(ai_client.py line 118). -/
def notConfiguredMsg : String :=
  "AI provider not configured or SDK not installed. Please add the google-genai SDK to requirements.txt."

/-- Python `str(e)` for the modelled exceptions. -/
def errMsg : PyErr → String
  | .attributeError => "AttributeError"
  | .runtimeError m => m

/-- `call_gemini` (ai_client.py lines 59-86): raises `RuntimeError` when
the SDK is unavailable or the client is not initialized, otherwise
performs the provider call, whose own exceptions are re-raised. -/
def call_gemini (env : AiEnv) (prompt : String) : Except PyErr String :=
  if !env.hasGenai || !env.clientOk then
    .error (.runtimeError
      "Google Gen AI SDK (google-genai) not available or not initialized.")
  else env.generate prompt

/-- The `if not API_KEY ... return ... return` tail of `ask_ai`
(ai_client.py lines 112-118). -/
def fallbackMsg (env : AiEnv) : String :=
  if keyFalsy env.apiKey then notEnabledMsg else notConfiguredMsg

/-- The outer `try ... except Exception` of `ask_ai` (ai_client.py lines
99 and 119-121): a raised exception becomes the "Unexpected AI client
error" string. -/
def handleUnexpected : Except PyErr String → Except PyErr String
  | Except.ok s => Except.ok s
  | Except.error e => Except.ok ("Unexpected AI client error: " ++ errMsg e)

/-- `ask_ai` (ai_client.py lines 88-121).  The whole body after the empty
prompt check sits in a `try` whose `except` returns an
"Unexpected AI client error" string; a failing provider call is caught
inside and turned into an "AI provider error (Gemini)" string (the Python
message also appends a runtime traceback dump, which carries no further
information for the model). -/
def ask_ai (env : AiEnv) (prompt : String) : Except PyErr String :=
  if prompt = "" then .ok "No prompt provided."
  else
    handleUnexpected <|
      if (env.apiProvider == "" || env.apiProvider == "gemini")
          && env.hasGenai then
        if env.clientOk then
          match call_gemini env prompt with
          | .ok out =>
            .ok (if out = "" then "No text returned from model." else out)
          | .error e => .ok ("AI provider error (Gemini): " ++ errMsg e)
        else .ok (fallbackMsg env)
      else .ok (fallbackMsg env)

/-- Sum of a list of domain scores. -/
def listSum (l : List Nat) : Nat := l.foldr (· + ·) 0

/-- Maximum of a list of domain scores (0 for the empty list). -/
def listMax (l : List Nat) : Nat := l.foldr max 0

/-- Round-to-nearest division on naturals (one half rounds up), the
`round(100 * best / total)` of the spec's formula. -/
def roundNearest (a b : Nat) : Nat := (2 * a + b) / (2 * b)

/-- Modelled from the spec: the provided source files contain no
domain-confidence computation (the field-classification loop of App.py
assigns only a label), so `detectDomainWithConfidence`'s confidence is
taken from the spec's words: "confidence = round(100 × best_domain_score /
total_of_all_domain_scores), defaulting to 0 when all scores are 0 (guard
divide-by-zero by substituting denominator 1)". -/
def domainConfidence (scores : List Nat) : Nat :=
  roundNearest (100 * listMax scores)
    (if listSum scores = 0 then 1 else listSum scores)

/-- The union of all hardcoded keyword tables, the "fixed hardcoded
vocabulary" of the classification code. -/
def specVocabulary : List Text :=
  ds_keyword ++ web_keyword ++ android_keyword ++ ios_keyword ++
    uiux_keyword ++ n_any

/-- Modelled from the spec's words, for comparison with the code:
"detectSkills(text, vocabulary) → set<SkillToken>: returns every
vocabulary entry that occurs as a case-insensitive substring of text". -/
def detectSkills_spec (t : Text) : List Text :=
  specVocabulary.filter (fun v => containsSub v (lower t))

/-- C1: for every input resume text (including the non-string guard case),
the resume structure score is a natural number and never exceeds 100: it
starts at 0, only the fixed non-negative section weights 6, 12, 16, 6, 7
and 19 are ever added, and their total 66 stays below 100. -/
theorem structure_score_bounded (resume_text : Option Text) :
    resume_score resume_text ≤ 100 := by
  unfold resume_score sectionScore
  split_ifs <;> norm_num

/-- C2 counterexample: the empty-input law fails on the code.  On empty
text with page count 0 (the default that `int(resume_data.get(
'no_of_pages') or 0)` yields when parsing found nothing) the candidate
level is `"NA"`, not `"Fresher"`; and on `None` text with page count 1
the level block evaluates `resume_text.upper()` and raises
`AttributeError` instead of treating the input as valid. -/
theorem empty_input_law_counterexample :
    candLevel (some []) 0 = Except.ok "NA" ∧
    (Except.ok "NA" : Except PyErr String) ≠ Except.ok "Fresher" ∧
    candLevel none 1 = Except.error PyErr.attributeError := by
  refine ⟨rfl, ?_, rfl⟩
  intro h
  injection h with h
  exact absurd h (by decide)

/-- C2 (amended): the analysis on empty text raises no exception and
yields structure score 0 and empty field/recommendation lists, and `None`
text is guarded to score 0 in the scoring block; but the experience level
is `"NA"` (not `"Fresher"`) whenever the parsed page count is below 1
(the default when parsing yields nothing), `"Fresher"` appearing only for
page count at least 1; and on `None` text with page count at least 1 the
level block raises `AttributeError`. -/
theorem empty_and_none_input_behavior (p : Int) :
    resume_score (some []) = 0 ∧
    resume_score none = 0 ∧
    fieldLoop [] = ("", []) ∧
    (p < 1 → candLevel (some []) p = Except.ok "NA" ∧
      candLevel none p = Except.ok "NA") ∧
    (1 ≤ p → candLevel (some []) p = Except.ok "Fresher") ∧
    (1 ≤ p → candLevel none p = Except.error PyErr.attributeError) := by
  refine ⟨rfl, rfl, rfl, ?_, ?_, ?_⟩
  · intro hp
    constructor <;> · unfold candLevel; rw [if_pos hp]
  · intro hp
    unfold candLevel
    rw [if_neg (by omega : ¬ p < 1)]
    rfl
  · intro hp
    unfold candLevel
    rw [if_neg (by omega : ¬ p < 1)]

/-- C2 witness: the amended behaviour at the concrete page counts 0
and 1. -/
theorem empty_and_none_input_behavior_witness :
    (candLevel (some []) 0 = Except.ok "NA" ∧
      candLevel none 0 = Except.ok "NA") ∧
    candLevel (some []) 1 = Except.ok "Fresher" ∧
    candLevel none 1 = Except.error PyErr.attributeError :=
  ⟨(empty_and_none_input_behavior 0).2.2.2.1 (by norm_num),
   (empty_and_none_input_behavior 1).2.2.2.2.1 (by norm_num),
   (empty_and_none_input_behavior 1).2.2.2.2.2 (by norm_num)⟩

/-- C3: the scoring computation is deterministic: for identical resume
text, page count and parsed skill list, the produced experience level,
structure score, predicted field and recommended-skill list are identical
in both runs, whatever the randomized course-recommendation collaborator
returns in each run. -/
theorem scorecard_deterministic (resume_text : Option Text)
    (no_of_pages : Int) (skills_list : List (Option Text))
    (c₁ c₂ : String → List String) :
    (analyze resume_text no_of_pages skills_list c₁).cand_level =
      (analyze resume_text no_of_pages skills_list c₂).cand_level ∧
    (analyze resume_text no_of_pages skills_list c₁).score =
      (analyze resume_text no_of_pages skills_list c₂).score ∧
    (analyze resume_text no_of_pages skills_list c₁).reco_field =
      (analyze resume_text no_of_pages skills_list c₂).reco_field ∧
    (analyze resume_text no_of_pages skills_list c₁).recommended_skills =
      (analyze resume_text no_of_pages skills_list c₂).recommended_skills :=
  ⟨rfl, rfl, rfl, rfl⟩

/-- C4 counterexample: the claimed keyword categories and priority order
fail on the code.  Text made of exactly the claimed senior/lead/architect/
manager keywords yields `"Fresher"`, not `"Experienced"`; and text
containing both an internship and an experience keyword yields
`"Intermediate"`, because the code checks `'INTERNSHIP'` before
`'EXPERIENCE'`, the reverse of the claimed priority. -/
theorem level_priority_counterexample :
    candLevel (some "senior lead architect manager".toList) 1 =
      Except.ok "Fresher" ∧
    candLevel (some "internship and experience".toList) 1 =
      Except.ok "Intermediate" :=
  ⟨rfl, rfl⟩

/-- C4 (amended): experience-level detection first yields `"NA"` when the
parsed page count is below 1; otherwise it scans the uppercased text for
the substring `'INTERNSHIP'` first, yielding Intermediate (even when
experience keywords are also present), then for `'EXPERIENCE'`, yielding
Experienced, and yields Fresher only when neither occurs.  Senior, lead,
architect, manager and trainee keywords are not consulted. -/
theorem level_detection_order (t : Text) (p : Int) :
    (p < 1 → candLevel (some t) p = Except.ok "NA") ∧
    (1 ≤ p → containsSub "INTERNSHIP".toList (upper t) = true →
      candLevel (some t) p = Except.ok "Intermediate") ∧
    (1 ≤ p → containsSub "INTERNSHIP".toList (upper t) = false →
      containsSub "EXPERIENCE".toList (upper t) = true →
      candLevel (some t) p = Except.ok "Experienced") ∧
    (1 ≤ p → containsSub "INTERNSHIP".toList (upper t) = false →
      containsSub "EXPERIENCE".toList (upper t) = false →
      candLevel (some t) p = Except.ok "Fresher") := by
  refine ⟨?_, ?_, ?_, ?_⟩
  · intro hp
    unfold candLevel
    rw [if_pos hp]
  · intro hp h1
    unfold candLevel
    rw [if_neg (by omega : ¬ p < 1)]
    simp only []
    rw [h1]
    rfl
  · intro hp h1 h2
    unfold candLevel
    rw [if_neg (by omega : ¬ p < 1)]
    simp only []
    rw [h1, h2]
    rfl
  · intro hp h1 h2
    unfold candLevel
    rw [if_neg (by omega : ¬ p < 1)]
    simp only []
    rw [h1, h2]
    rfl

/-- C4 witness: the amended behaviour at a concrete input where both
section words occur. -/
theorem level_detection_order_witness :
    candLevel (some "INTERNSHIP EXPERIENCE".toList) 1 =
      Except.ok "Intermediate" :=
  (level_detection_order "INTERNSHIP EXPERIENCE".toList 1).2.1
    (by norm_num) (by decide)

/-- Helper: the `try ... except` wrapper of `ask_ai` always produces an
`ok` result. -/
theorem handleUnexpected_ok (b : Except PyErr String) :
    ∃ s, handleUnexpected b = Except.ok s := by
  cases b <;> exact ⟨_, rfl⟩

/-- C5: for every prompt and every environment (SDK present or missing,
key present or missing, provider call succeeding or failing), `ask_ai`
returns a string and never propagates an exception; with the SDK missing
and no key it returns the static not-enabled message, and a failing
provider call is degraded to an "AI provider error (Gemini)" message. -/
theorem ask_ai_total_and_fallback :
    (∀ env prompt, ∃ s, ask_ai env prompt = Except.ok s) ∧
    (∀ env prompt, prompt ≠ "" → env.hasGenai = false →
      keyFalsy env.apiKey = true →
      ask_ai env prompt = Except.ok notEnabledMsg) ∧
    (∀ env prompt e, prompt ≠ "" → env.hasGenai = true →
      env.clientOk = true →
      (env.apiProvider = "" ∨ env.apiProvider = "gemini") →
      env.generate prompt = Except.error e →
      ask_ai env prompt =
        Except.ok ("AI provider error (Gemini): " ++ errMsg e)) := by
  refine ⟨?_, ?_, ?_⟩
  · intro env prompt
    by_cases hp : prompt = ""
    · exact ⟨_, by rw [ask_ai, if_pos hp]⟩
    · unfold ask_ai
      rw [if_neg hp]
      exact handleUnexpected_ok _
  · intro env prompt hp hgen hkey
    unfold ask_ai
    rw [if_neg hp]
    simp [hgen, fallbackMsg, hkey, handleUnexpected]
  · intro env prompt e hp hgen hclient hprov hcall
    unfold ask_ai call_gemini
    rw [if_neg hp]
    rcases hprov with h | h <;>
      simp [h, hgen, hclient, hcall, handleUnexpected]

/-- C5 witness: with the SDK unavailable and no key configured, a
non-empty prompt gets the static not-enabled message and no exception. -/
theorem ask_ai_total_and_fallback_witness :
    ask_ai ⟨false, false, "", none, fun _ => Except.ok ""⟩ "hello" =
      Except.ok notEnabledMsg :=
  ask_ai_total_and_fallback.2.1 _ "hello" (by decide) rfl rfl

/-- C6: if the uppercased resume text contains none of the twelve
configured section names the structure score is exactly 0, and if it
contains all of them the score is exactly 6 + 12 + 16 + 6 + 7 + 19 = 66,
the total of the configured per-section weight table. -/
theorem structure_score_extremes (t : Text) :
    ((∀ k ∈ sectionKeywords, hit (upper t) k = false) →
      resume_score (some t) = 0) ∧
    ((∀ k ∈ sectionKeywords, hit (upper t) k = true) →
      resume_score (some t) = 6 + 12 + 16 + 6 + 7 + 19) := by
  constructor
  · intro h
    have h1 := h "OBJECTIVE" (by simp [sectionKeywords])
    have h2 := h "SUMMARY" (by simp [sectionKeywords])
    have h3 := h "EDUCATION" (by simp [sectionKeywords])
    have h4 := h "SCHOOL" (by simp [sectionKeywords])
    have h5 := h "COLLEGE" (by simp [sectionKeywords])
    have h6 := h "EXPERIENCE" (by simp [sectionKeywords])
    have h7 := h "INTERNSHIP" (by simp [sectionKeywords])
    have h8 := h "INTERNSHIPS" (by simp [sectionKeywords])
    have h9 := h "SKILL" (by simp [sectionKeywords])
    have h10 := h "SKILLS" (by simp [sectionKeywords])
    have h11 := h "PROJECT" (by simp [sectionKeywords])
    have h12 := h "PROJECTS" (by simp [sectionKeywords])
    unfold resume_score sectionScore text_upper
    simp only []
    rw [h1, h2, h3, h4, h5, h6, h7, h8, h9, h10, h11, h12]
    rfl
  · intro h
    have h1 := h "OBJECTIVE" (by simp [sectionKeywords])
    have h2 := h "SUMMARY" (by simp [sectionKeywords])
    have h3 := h "EDUCATION" (by simp [sectionKeywords])
    have h4 := h "SCHOOL" (by simp [sectionKeywords])
    have h5 := h "COLLEGE" (by simp [sectionKeywords])
    have h6 := h "EXPERIENCE" (by simp [sectionKeywords])
    have h7 := h "INTERNSHIP" (by simp [sectionKeywords])
    have h8 := h "INTERNSHIPS" (by simp [sectionKeywords])
    have h9 := h "SKILL" (by simp [sectionKeywords])
    have h10 := h "SKILLS" (by simp [sectionKeywords])
    have h11 := h "PROJECT" (by simp [sectionKeywords])
    have h12 := h "PROJECTS" (by simp [sectionKeywords])
    unfold resume_score sectionScore text_upper
    simp only []
    rw [h1, h2, h3, h4, h5, h6, h7, h8, h9, h10, h11, h12]
    rfl

/-- C6 witness: the two extremes at concrete texts — empty text scores 0,
and text containing all twelve section names scores 66. -/
theorem structure_score_extremes_witness :
    resume_score (some []) = 0 ∧
    resume_score (some ("objective summary education school college " ++
      "experience internships skills projects").toList) = 66 :=
  ⟨(structure_score_extremes []).1 (by decide),
   (structure_score_extremes _).2 (by decide)⟩

/-- C7 counterexample: skill matching is not substring containment.  The
vocabulary entry `"tensorflow"` occurs as a case-insensitive substring of
the text `"uses TensorFlows daily"` (so the spec-modelled substring
detector returns it), yet the code classifies the corresponding parsed
token `"TensorFlows"` as nothing: its lowercase form is not literally an
element of any vocabulary list, so the loop matches no skill and leaves
the field empty. -/
theorem skill_substring_counterexample :
    detectSkills_spec "uses TensorFlows daily".toList =
      ["tensorflow".toList] ∧
    matchTok (some "TensorFlows".toList) = none ∧
    fieldLoop [some "TensorFlows".toList] = ("", []) := by
  refine ⟨by decide, by decide, by decide⟩

/-- C7 (amended): skill matching in the field-classification code is
exact case-insensitive list membership, not substring containment: a
parsed skill token is classified precisely when its lowercased form is
literally an element of one of the six hardcoded vocabulary lists, and
the resume text itself is never scanned for vocabulary entries. -/
theorem skill_matching_exact_membership (i : Text) :
    (classifyToken i).isSome = true ↔
      (ds_keyword.contains i || web_keyword.contains i ||
       android_keyword.contains i || ios_keyword.contains i ||
       uiux_keyword.contains i || n_any.contains i) = true := by
  unfold classifyToken
  split_ifs <;> simp_all

/-- C7 witness: the exact-membership criterion at the concrete token
`"flask"`, an element of the data-science vocabulary list. -/
theorem skill_matching_exact_membership_witness :
    (classifyToken "flask".toList).isSome = true :=
  (skill_matching_exact_membership "flask".toList).mpr (by decide)

/-- Helper: an `if _ then w else 0` term is monotone in its condition. -/
theorem ite_weight_le {a b : Bool} (w : Nat) (h : a = true → b = true) :
    (if a then w else 0) ≤ (if b then w else 0) := by
  cases a <;> cases b <;> simp_all

/-- Helper: implication lifts through a two-way boolean disjunction. -/
theorem or2_imp {a₁ a₂ b₁ b₂ : Bool} (h₁ : a₁ = true → b₁ = true)
    (h₂ : a₂ = true → b₂ = true) :
    (a₁ || a₂) = true → (b₁ || b₂) = true := by
  cases a₁ <;> cases a₂ <;> simp_all

/-- Helper: implication lifts through a three-way boolean disjunction. -/
theorem or3_imp {a₁ a₂ a₃ b₁ b₂ b₃ : Bool} (h₁ : a₁ = true → b₁ = true)
    (h₂ : a₂ = true → b₂ = true) (h₃ : a₃ = true → b₃ = true) :
    (a₁ || a₂ || a₃) = true → (b₁ || b₂ || b₃) = true := by
  cases a₁ <;> cases a₂ <;> cases a₃ <;> simp_all

/-- C8: the structure score is monotone in matched section keywords: if
every configured section keyword occurring in resume text `t` also occurs
in resume text `u` (as when `u` extends `t` with more matching keywords),
the score of `u` is at least the score of `t`. -/
theorem structure_score_monotone (t u : Text)
    (h : ∀ k ∈ sectionKeywords,
      hit (upper t) k = true → hit (upper u) k = true) :
    resume_score (some t) ≤ resume_score (some u) := by
  have h1 := h "OBJECTIVE" (by simp [sectionKeywords])
  have h2 := h "SUMMARY" (by simp [sectionKeywords])
  have h3 := h "EDUCATION" (by simp [sectionKeywords])
  have h4 := h "SCHOOL" (by simp [sectionKeywords])
  have h5 := h "COLLEGE" (by simp [sectionKeywords])
  have h6 := h "EXPERIENCE" (by simp [sectionKeywords])
  have h7 := h "INTERNSHIP" (by simp [sectionKeywords])
  have h8 := h "INTERNSHIPS" (by simp [sectionKeywords])
  have h9 := h "SKILL" (by simp [sectionKeywords])
  have h10 := h "SKILLS" (by simp [sectionKeywords])
  have h11 := h "PROJECT" (by simp [sectionKeywords])
  have h12 := h "PROJECTS" (by simp [sectionKeywords])
  unfold resume_score sectionScore text_upper
  simp only []
  refine Nat.add_le_add (Nat.add_le_add (Nat.add_le_add (Nat.add_le_add
    (Nat.add_le_add ?_ ?_) ?_) ?_) ?_) ?_
  · exact ite_weight_le 6 (or2_imp h1 h2)
  · exact ite_weight_le 12 (or3_imp h3 h4 h5)
  · exact ite_weight_le 16 h6
  · exact ite_weight_le 6 (or2_imp h7 h8)
  · exact ite_weight_le 7 (or2_imp h9 h10)
  · exact ite_weight_le 19 (or2_imp h11 h12)

/-- C8 witness: the monotonicity instance from empty text to text where
one more section keyword matches. -/
theorem structure_score_monotone_witness :
    resume_score (some []) ≤ resume_score (some "EXPERIENCE".toList) :=
  structure_score_monotone [] "EXPERIENCE".toList (by decide)

/-- Helper: the maximum of a list whose members are all zero is zero. -/
theorem listMax_eq_zero (l : List Nat) (h : ∀ x ∈ l, x = 0) :
    listMax l = 0 := by
  induction l with
  | nil => rfl
  | cons a l ih =>
    have ha : a = 0 := h a (List.mem_cons_self a l)
    have ih2 := ih (fun x hx => h x (List.mem_cons_of_mem a hx))
    show max a (listMax l) = 0
    rw [ha, ih2]
    simp

/-- C9: the spec-modelled domain confidence is
round(100 × best_domain_score / total_of_all_domain_scores) with the
denominator substituted by 1 when the total is 0 — so the substituted
denominator is always positive (no divide-by-zero) — and it defaults to 0
when all domain scores are 0. -/
theorem domain_confidence_guarded (scores : List Nat) :
    (0 < if listSum scores = 0 then 1 else listSum scores) ∧
    ((∀ x ∈ scores, x = 0) → domainConfidence scores = 0) ∧
    domainConfidence scores =
      roundNearest (100 * listMax scores)
        (if listSum scores = 0 then 1 else listSum scores) := by
  have hd : 0 < if listSum scores = 0 then 1 else listSum scores := by
    split
    · norm_num
    · exact Nat.pos_of_ne_zero (by assumption)
  refine ⟨hd, ?_, rfl⟩
  intro h
  have hm := listMax_eq_zero scores h
  unfold domainConfidence roundNearest
  rw [hm]
  simp only [Nat.mul_zero, Nat.zero_add]
  generalize hg : (if listSum scores = 0 then 1 else listSum scores) = d
    at hd ⊢
  exact Nat.div_eq_of_lt (by omega)

/-- C9 witness: with all domain scores zero, the confidence is 0. -/
theorem domain_confidence_guarded_witness :
    domainConfidence [0, 0, 0] = 0 :=
  (domain_confidence_guarded [0, 0, 0]).2.1 (by decide)

/-- C10: the predicted field is decided by first-match-wins over the
parsed skill list: the first entry whose lowercase form belongs to a
category table fixes `(reco_field, recommended_skills)` and every later
entry is ignored; per-skill category priority is Data Science, Web,
Android, iOS, UI-UX, then the generic table (yielding `"NA"`); and when
no entry matches any table, the field stays `("", [])`. -/
theorem field_first_match_wins :
    (∀ pre x suf r, (∀ s ∈ pre, matchTok s = none) →
      matchTok x = some r → fieldLoop (pre ++ x :: suf) = r) ∧
    (∀ skills, (∀ s ∈ skills, matchTok s = none) →
      fieldLoop skills = ("", [])) ∧
    (∀ il, ds_keyword.contains il = true →
      (classifyToken il).map Prod.fst = some "Data Science") ∧
    (∀ il, ds_keyword.contains il = false →
      web_keyword.contains il = true →
      (classifyToken il).map Prod.fst = some "Web Development") ∧
    (∀ il, ds_keyword.contains il = false →
      web_keyword.contains il = false →
      android_keyword.contains il = true →
      (classifyToken il).map Prod.fst = some "Android Development") ∧
    (∀ il, ds_keyword.contains il = false →
      web_keyword.contains il = false →
      android_keyword.contains il = false →
      ios_keyword.contains il = true →
      (classifyToken il).map Prod.fst = some "IOS Development") ∧
    (∀ il, ds_keyword.contains il = false →
      web_keyword.contains il = false →
      android_keyword.contains il = false →
      ios_keyword.contains il = false →
      uiux_keyword.contains il = true →
      (classifyToken il).map Prod.fst = some "UI-UX Development") ∧
    (∀ il, ds_keyword.contains il = false →
      web_keyword.contains il = false →
      android_keyword.contains il = false →
      ios_keyword.contains il = false →
      uiux_keyword.contains il = false →
      n_any.contains il = true →
      (classifyToken il).map Prod.fst = some "NA") ∧
    (∀ il, ds_keyword.contains il = false →
      web_keyword.contains il = false →
      android_keyword.contains il = false →
      ios_keyword.contains il = false →
      uiux_keyword.contains il = false →
      n_any.contains il = false →
      classifyToken il = none) := by
  refine ⟨?_, ?_, ?_, ?_, ?_, ?_, ?_, ?_, ?_⟩
  · intro pre x suf r
    induction pre with
    | nil =>
      intro _ hx
      show fieldLoop (x :: suf) = r
      unfold fieldLoop
      rw [hx]
    | cons a l ih =>
      intro hpre hx
      have ha : matchTok a = none := hpre a (List.mem_cons_self a l)
      have hl : ∀ s ∈ l, matchTok s = none := fun s hs =>
        hpre s (List.mem_cons_of_mem a hs)
      show fieldLoop (a :: (l ++ x :: suf)) = r
      unfold fieldLoop
      rw [ha]
      exact ih hl hx
  · intro skills
    induction skills with
    | nil => intro _; rfl
    | cons a l ih =>
      intro hall
      have ha : matchTok a = none := hall a (List.mem_cons_self a l)
      have hl : ∀ s ∈ l, matchTok s = none := fun s hs =>
        hall s (List.mem_cons_of_mem a hs)
      unfold fieldLoop
      rw [ha]
      exact ih hl
  · intro il h1
    unfold classifyToken
    rw [h1]
    rfl
  · intro il h1 h2
    unfold classifyToken
    rw [h1, h2]
    rfl
  · intro il h1 h2 h3
    unfold classifyToken
    rw [h1, h2, h3]
    rfl
  · intro il h1 h2 h3 h4
    unfold classifyToken
    rw [h1, h2, h3, h4]
    rfl
  · intro il h1 h2 h3 h4 h5
    unfold classifyToken
    rw [h1, h2, h3, h4, h5]
    rfl
  · intro il h1 h2 h3 h4 h5 h6
    unfold classifyToken
    rw [h1, h2, h3, h4, h5, h6]
    rfl
  · intro il h1 h2 h3 h4 h5 h6
    unfold classifyToken
    rw [h1, h2, h3, h4, h5, h6]
    rfl

/-- C10 witness: a skill list where the third entry is the first match —
a `None` entry and an unknown token are skipped, `"Flask"` (whose
lowercase form is in both the data-science and web tables) fixes the Data
Science field by category priority, and the later `"react"` entry is
ignored. -/
theorem field_first_match_wins_witness :
    fieldLoop [none, some "qqq".toList, some "Flask".toList,
      some "react".toList] = ("Data Science", dsRecommendedSkills) :=
  field_first_match_wins.1 [none, some "qqq".toList] (some "Flask".toList)
    [some "react".toList] ("Data Science", dsRecommendedSkills)
    (by decide) (by decide)

end ResumeAnalyzer
